import Mathlib

/-!
Verification of the prompt-builder UI components (PromptBuilder.tsx and
PromptItem.tsx) against their specification.  The TypeScript components are
shallowly embedded: React event handlers become pure functions from the
injected callback props and the event data to an explicit record of effects
(callback invocations made, toasts shown, and whether an exception escaped);
textarea strings become lists of characters; the async callbacks become
functions returning an explicit outcome (the promise resolves to a boolean or
rejects).
-/

/-- A history log entry of a prompt fragment.  The source displays and compares
`new Date(entry.timestamp).getTime()`; the numeric time value is modelled
directly as an integer. -/
structure HistoryLogEntry where
  text : String
  timestamp : Int
deriving Repr, DecidableEq

/-- A prompt fragment (prefix, suffix or phase prompt) as used by the
components: the fields the embedded handlers and renderers read.  Fields that
are only displayed verbatim (tags, uses, created_by, length, ...) are
omitted. -/
structure PromptFragment where
  id : String
  text : String
  deprecated : Bool
  history_log : List HistoryLogEntry
deriving Repr, DecidableEq

/-- The prefixes collection prop (`prefixesData.prefixes`). -/
structure PrefixesData where
  prefixes : List PromptFragment
deriving Repr, DecidableEq

/-- The suffixes collection prop (`suffixesData.suffixes`). -/
structure SuffixesData where
  suffixes : List PromptFragment
deriving Repr, DecidableEq

/-- The per-phase prompt collection (`phasePromptsMap[phaseId].prompts`). -/
structure PhasePromptsData where
  prompts : List PromptFragment
deriving Repr, DecidableEq

/-- One phase of the phases configuration. -/
structure Phase where
  id : String
  name : String
deriving Repr, DecidableEq

/-- The phases configuration prop (`phasesConfig.phases`). -/
structure PhasesConfig where
  phases : List Phase
deriving Repr, DecidableEq

/-- `phasePromptsMap` is a JavaScript record keyed by phase id; modelled as an
association list so that both `phasePromptsMap[key]` and
`Object.values(phasePromptsMap)` are expressible. -/
def PhasePromptsMap : Type := List (String × PhasePromptsData)

/-- `phasePromptsMap[key]?.` : optional-chaining lookup by phase id. -/
def lookupPhase (m : PhasePromptsMap) (key : String) : Option PhasePromptsData :=
  match m with
  | [] => none
  | e :: rest => if e.1 = key then some e.2 else lookupPhase rest key

/-- `Object.values(phasePromptsMap)`. -/
def phaseMapValues (m : PhasePromptsMap) : List PhasePromptsData :=
  match m with
  | [] => []
  | e :: rest => e.2 :: phaseMapValues rest

/-- A toast notification shown through `sonner`. -/
inductive Toast
  | success (msg : String)
  | error (msg : String)
deriving Repr, DecidableEq

/-- The outcome of awaiting one of the injected async callbacks: the promise
resolves to a boolean, or it rejects (throws). -/
inductive CbResult
  | resolves (b : Bool)
  | rejects
deriving Repr, DecidableEq

/-- An invocation of one of the injected callback props, with the arguments
passed.  The `restore...Call` constructors exist so that "the dedicated
onRestore props are never invoked" is expressible; no handler of the
component produces them. -/
inductive PropCall
  | updatePrefixCall (id text : String) (persist : Bool)
  | updateSuffixCall (id text : String) (persist : Bool)
  | updatePhasePromptCall (phaseId promptId text : String) (persist : Bool)
  | restorePrefixCall (id : String) (entry : HistoryLogEntry)
  | restoreSuffixCall (id : String) (entry : HistoryLogEntry)
  | restorePhasePromptCall (phaseId promptId : String) (entry : HistoryLogEntry)
  | selectPrefixCall (f : PromptFragment)
  | selectSuffixCall (f : PromptFragment)
  | selectPhasePromptCall (f : PromptFragment) (phaseId : String)
  | deprecatePrefixCall (id : String)
  | deprecateSuffixCall (id : String)
  | deprecatePhasePromptCall (promptId phaseId : String)
  | createPrefixCall (text : String)
  | createSuffixCall (text : String)
  | createPhasePromptCall (phaseId text : String)
deriving Repr, DecidableEq

/-- Whether a call goes to one of the dedicated onRestore props. -/
def PropCall.isRestoreCall : PropCall → Bool
  | PropCall.restorePrefixCall _ _ => true
  | PropCall.restoreSuffixCall _ _ => true
  | PropCall.restorePhasePromptCall _ _ _ => true
  | _ => false

/-- The effects of running one handler: the prop callbacks invoked (in order)
and either the toasts shown (`Except.ok`) or an exception escaping the handler
(`Except.error`). -/
structure HandlerRun where
  calls : List PropCall
  outcome : Except Unit (List Toast)
deriving Repr

/-- The `catch` block of the handlers: a thrown exception from the `try` body
is swallowed (after `console.error`) and replaced by one error toast. -/
def runCatch (body : HandlerRun) (catchToast : Toast) : HandlerRun :=
  { calls := body.calls
    outcome :=
      match body.outcome with
      | Except.ok ts => Except.ok ts
      | Except.error _ => Except.ok [catchToast] }

/-- The `try` body of `handleUpdatePrefix`: if `onUpdatePrefix` is present, await
it; on `true` show the success toast and return; otherwise fall through to the
error toast.  A rejected promise escapes the body. -/
def updatePrefixTry (onUpdatePrefix : Option (String → String → Bool → CbResult))
    (prefixId newText : String) (persistChange : Bool) : HandlerRun :=
  match onUpdatePrefix with
  | some f =>
    match f prefixId newText persistChange with
    | CbResult.resolves true =>
      { calls := [PropCall.updatePrefixCall prefixId newText persistChange]
        outcome := Except.ok [Toast.success
          (if persistChange then "Prefix updated and persisted"
           else "Prefix updated for the current session")] }
    | CbResult.resolves false =>
      { calls := [PropCall.updatePrefixCall prefixId newText persistChange]
        outcome := Except.ok [Toast.error ("Failed to update prefix")] }
    | CbResult.rejects =>
      { calls := [PropCall.updatePrefixCall prefixId newText persistChange]
        outcome := Except.error () }
  | none => { calls := [], outcome := Except.ok [Toast.error ("Failed to update prefix")] }

/-- `handleUpdatePrefix` of PromptBuilder: the try body wrapped in the catch. -/
def handleUpdatePrefix (onUpdatePrefix : Option (String → String → Bool → CbResult))
    (prefixId newText : String) (persistChange : Bool) : HandlerRun :=
  runCatch (updatePrefixTry onUpdatePrefix prefixId newText persistChange)
    (Toast.error ("Error updating prefix"))

/-- The `try` body of `handleUpdateSuffix`. -/
def updateSuffixTry (onUpdateSuffix : Option (String → String → Bool → CbResult))
    (suffixId newText : String) (persistChange : Bool) : HandlerRun :=
  match onUpdateSuffix with
  | some f =>
    match f suffixId newText persistChange with
    | CbResult.resolves true =>
      { calls := [PropCall.updateSuffixCall suffixId newText persistChange]
        outcome := Except.ok [Toast.success
          (if persistChange then "Suffix updated and persisted"
           else "Suffix updated for the current session")] }
    | CbResult.resolves false =>
      { calls := [PropCall.updateSuffixCall suffixId newText persistChange]
        outcome := Except.ok [Toast.error ("Failed to update suffix")] }
    | CbResult.rejects =>
      { calls := [PropCall.updateSuffixCall suffixId newText persistChange]
        outcome := Except.error () }
  | none => { calls := [], outcome := Except.ok [Toast.error ("Failed to update suffix")] }

/-- `handleUpdateSuffix` of PromptBuilder. -/
def handleUpdateSuffix (onUpdateSuffix : Option (String → String → Bool → CbResult))
    (suffixId newText : String) (persistChange : Bool) : HandlerRun :=
  runCatch (updateSuffixTry onUpdateSuffix suffixId newText persistChange)
    (Toast.error ("Error updating suffix"))

/-- The `try` body of `handleUpdatePhasePrompt`. -/
def updatePhasePromptTry
    (onUpdatePhasePrompt : Option (String → String → String → Bool → CbResult))
    (phaseId promptId newText : String) (persistChange : Bool) : HandlerRun :=
  match onUpdatePhasePrompt with
  | some f =>
    match f phaseId promptId newText persistChange with
    | CbResult.resolves true =>
      { calls := [PropCall.updatePhasePromptCall phaseId promptId newText persistChange]
        outcome := Except.ok [Toast.success
          (if persistChange then "Phase prompt updated and persisted"
           else "Phase prompt updated for the current session")] }
    | CbResult.resolves false =>
      { calls := [PropCall.updatePhasePromptCall phaseId promptId newText persistChange]
        outcome := Except.ok [Toast.error ("Failed to update phase prompt")] }
    | CbResult.rejects =>
      { calls := [PropCall.updatePhasePromptCall phaseId promptId newText persistChange]
        outcome := Except.error () }
  | none => { calls := [], outcome := Except.ok [Toast.error ("Failed to update phase prompt")] }

/-- `handleUpdatePhasePrompt` of PromptBuilder. -/
def handleUpdatePhasePrompt
    (onUpdatePhasePrompt : Option (String → String → String → Bool → CbResult))
    (phaseId promptId newText : String) (persistChange : Bool) : HandlerRun :=
  runCatch (updatePhasePromptTry onUpdatePhasePrompt phaseId promptId newText persistChange)
    (Toast.error ("Error updating phase prompt"))

/-- Number of success toasts in a list. -/
def successCount (l : List Toast) : Nat :=
  l.countP fun t => match t with | Toast.success _ => true | Toast.error _ => false

/-- Number of error toasts in a list. -/
def errorCount (l : List Toast) : Nat :=
  l.countP fun t => match t with | Toast.success _ => false | Toast.error _ => true

/-- The injected update callback is present and resolves to `true` on these
arguments. -/
def cbSucceeds3 (cb : Option (String → String → Bool → CbResult))
    (a b : String) (c : Bool) : Prop :=
  ∃ f, cb = some f ∧ f a b c = CbResult.resolves true

/-- The injected phase-prompt update callback is present and resolves to `true`
on these arguments. -/
def cbSucceeds4 (cb : Option (String → String → String → Bool → CbResult))
    (a b c : String) (d : Bool) : Prop :=
  ∃ f, cb = some f ∧ f a b c d = CbResult.resolves true

/-- The toast outcome claimed for every update handler: no exception escapes,
exactly one success toast and no error toast when the callback succeeded, and
exactly one error toast and no success toast otherwise. -/
def toastContract (run : HandlerRun) (succeeded : Prop) : Prop :=
  ∃ ts, run.outcome = Except.ok ts ∧
    ((successCount ts = 1 ∧ errorCount ts = 0) ↔ succeeded) ∧
    ((successCount ts = 0 ∧ errorCount ts = 1) ↔ ¬ succeeded)


/-- The dropdown type state of PromptBuilder: the source's string union
`"all" | "phase" | "prefix" | "suffix"`; `pfx` and `sfx` stand for the
source's "prefix" and "suffix" values. -/
inductive DropdownType
  | all
  | phase
  | pfx
  | sfx
deriving Repr, DecidableEq

/-- The pixel position computed for the dropdown. -/
structure DropdownPos where
  top : Nat
  left : Nat
deriving Repr, DecidableEq

/-- A keydown event on the main textarea.  `value` is the textarea's text (as
a list of characters) and `selectionStart` the cursor position; during the
handler `event.currentTarget` and `textareaRef.current` are the same
textarea, so they share these two fields. -/
structure KeyEvent where
  ctrlKey : Bool
  key : String
  value : List Char
  selectionStart : Nat
deriving Repr, DecidableEq

/-- `value.charAt(i)`: the character at index `i`, if in range. -/
def charAt (s : List Char) (i : Nat) : Option Char := s[i]?

/-- Lines 365-370: the cursor is at the start of a line when `selectionStart`
is 0 or the character before it is a newline.  (JavaScript short-circuits
`||`, so `charAt (-1)` is never read there; with truncated natural-number
subtraction the disjunction has the same value.) -/
def atLineStart (value : List Char) (selectionStart : Nat) : Bool :=
  selectionStart == 0 || charAt value (selectionStart - 1) == some '\n'

/-- JavaScript's `text.split("\n")` on a list of characters: the segments
between newline characters; always at least one (possibly empty) segment. -/
def splitNL : List Char → List (List Char)
  | [] => [[]]
  | c :: cs =>
    if c = '\n' then [] :: splitNL cs
    else
      match splitNL cs with
      | [] => [[c]]
      | r :: rs => (c :: r) :: rs

/-- `handleDropdownTrigger`'s position computation (lines 376-393): with
`text` the value up to the cursor and `lines = text.split("\n")`,
`top = (lines.length - 1) * 24 + 30` and
`left = lines[lines.length - 1].length * 8 + 10`. -/
def dropdownPosition (value : List Char) (cursorPosition : Nat) : DropdownPos :=
  let text := value.take cursorPosition
  let lines := splitNL text
  let currentLineIndex := lines.length - 1
  { top := currentLineIndex * 24 + 30
    left := (lines.getD currentLineIndex []).length * 8 + 10 }

/-- The observable effect of one `handleKeyDown` run: whether
`preventDefault` was called, how often `onGenerate` and `onTidyAndGenerate`
were invoked, and the dropdown state set (type and position). -/
structure KeyDownOut where
  preventDefault : Bool
  generateCalls : Nat
  tidyCalls : Nat
  dropdownOpened : Option DropdownType
  dropdownPos : Option DropdownPos
deriving Repr, DecidableEq

/-- A keydown that matches no shortcut leaves everything untouched. -/
def keyNoAction : KeyDownOut :=
  { preventDefault := false
    generateCalls := 0
    tidyCalls := 0
    dropdownOpened := none
    dropdownPos := none }

/-- `handleDropdownTrigger type` (lines 371-397): prevent the default
insertion, set the dropdown position from the cursor, set the type and show
the dropdown. -/
def dropdownTrigger (t : DropdownType) (e : KeyEvent) : KeyDownOut :=
  { preventDefault := true
    generateCalls := 0
    tidyCalls := 0
    dropdownOpened := some t
    dropdownPos := some (dropdownPosition e.value e.selectionStart) }

/-- `handleKeyDown` (lines 354-409).  `hasOnGenerate` and
`hasOnTidyAndGenerate` say whether the optional generation props are present
(the source calls them with `?.()`). -/
def handleKeyDown (hasOnGenerate hasOnTidyAndGenerate : Bool) (e : KeyEvent) : KeyDownOut :=
  if e.ctrlKey && e.key == "Enter" then
    { keyNoAction with
        preventDefault := true
        generateCalls := if hasOnGenerate then 1 else 0 }
  else if e.ctrlKey && e.key == "t" then
    { keyNoAction with
        preventDefault := true
        tidyCalls := if hasOnTidyAndGenerate then 1 else 0 }
  else if atLineStart e.value e.selectionStart then
    if e.key == "/" then dropdownTrigger DropdownType.all e
    else if e.key == "#" then dropdownTrigger DropdownType.phase e
    else if e.key == "$" then dropdownTrigger DropdownType.pfx e
    else if e.key == "@" then dropdownTrigger DropdownType.sfx e
    else keyNoAction
  else keyNoAction

/-- Claim side: the dropdown type the specification assigns to each trigger
key ('/' all, '#' phase, '$' prefix, '@' suffix; nothing otherwise). -/
def triggerTypeOf (key : String) : Option DropdownType :=
  if key = "/" then some DropdownType.all
  else if key = "#" then some DropdownType.phase
  else if key = "$" then some DropdownType.pfx
  else if key = "@" then some DropdownType.sfx
  else none

/-- Claim side: the length of the current line of a text, i.e. the number of
characters after the last newline (the whole text when it has no newline). -/
def curLineLen (l : List Char) : Nat :=
  l.foldl (fun acc c => if c = '\n' then 0 else acc + 1) 0

/-- The last segment of `splitNL`: the line the cursor is on,
`lines[lines.length - 1]` with `getD`'s default for the (impossible) empty
split. -/
def lastLineOf (l : List Char) : List Char :=
  (splitNL l).getD ((splitNL l).length - 1) []

/-- The comparator of PromptItem's history sort:
`(a, b) => new Date(b.timestamp).getTime() - new Date(a.timestamp).getTime()`;
`a` sorts no later than `b` when the difference is non-positive, i.e. when
`b`'s timestamp is at most `a`'s. -/
def historyLe (a b : HistoryLogEntry) : Bool := decide (b.timestamp ≤ a.timestamp)

/-- PromptItem lines 43-46: `[...prompt.history_log].sort(...)` — a stable
sort of a copy of the history log, newest first. -/
def sortedHistory (log : List HistoryLogEntry) : List HistoryLogEntry :=
  log.mergeSort historyLe

/-- The history dialog (PromptItem lines 199-233): the entries displayed, the
flag for the "No history available" message (shown when `sortedHistory` is
empty), and the prompt after rendering — the sort runs on the spread copy, so
the prompt prop comes back unchanged. -/
def promptItemHistoryDialog (prompt : PromptFragment) :
    List HistoryLogEntry × Bool × PromptFragment :=
  let copy := prompt.history_log
  let sorted := sortedHistory copy
  (sorted, sorted.length == 0, prompt)

/-- The `try` body of `handleRestorePrefixVersion` (lines 232-249): a restore
is dispatched as `onUpdatePrefix(prefixId, historyEntry.text, true)`. -/
def restorePrefixVersionTry (onUpdatePrefix : Option (String → String → Bool → CbResult))
    (prefixId : String) (historyEntry : HistoryLogEntry) : HandlerRun :=
  match onUpdatePrefix with
  | some f =>
    match f prefixId historyEntry.text true with
    | CbResult.resolves true =>
      { calls := [PropCall.updatePrefixCall prefixId historyEntry.text true]
        outcome := Except.ok [Toast.success ("Restored previous version of prefix")] }
    | CbResult.resolves false =>
      { calls := [PropCall.updatePrefixCall prefixId historyEntry.text true]
        outcome := Except.ok [Toast.error ("Failed to restore prefix version")] }
    | CbResult.rejects =>
      { calls := [PropCall.updatePrefixCall prefixId historyEntry.text true]
        outcome := Except.error () }
  | none => { calls := [], outcome := Except.ok [Toast.error ("Failed to restore prefix version")] }

/-- `handleRestorePrefixVersion` of PromptBuilder. -/
def handleRestorePrefixVersion (onUpdatePrefix : Option (String → String → Bool → CbResult))
    (prefixId : String) (historyEntry : HistoryLogEntry) : HandlerRun :=
  runCatch (restorePrefixVersionTry onUpdatePrefix prefixId historyEntry)
    (Toast.error ("Error restoring prefix version"))

/-- The `try` body of `handleRestoreSuffixVersion` (lines 277-294). -/
def restoreSuffixVersionTry (onUpdateSuffix : Option (String → String → Bool → CbResult))
    (suffixId : String) (historyEntry : HistoryLogEntry) : HandlerRun :=
  match onUpdateSuffix with
  | some f =>
    match f suffixId historyEntry.text true with
    | CbResult.resolves true =>
      { calls := [PropCall.updateSuffixCall suffixId historyEntry.text true]
        outcome := Except.ok [Toast.success ("Restored previous version of suffix")] }
    | CbResult.resolves false =>
      { calls := [PropCall.updateSuffixCall suffixId historyEntry.text true]
        outcome := Except.ok [Toast.error ("Failed to restore suffix version")] }
    | CbResult.rejects =>
      { calls := [PropCall.updateSuffixCall suffixId historyEntry.text true]
        outcome := Except.error () }
  | none => { calls := [], outcome := Except.ok [Toast.error ("Failed to restore suffix version")] }

/-- `handleRestoreSuffixVersion` of PromptBuilder. -/
def handleRestoreSuffixVersion (onUpdateSuffix : Option (String → String → Bool → CbResult))
    (suffixId : String) (historyEntry : HistoryLogEntry) : HandlerRun :=
  runCatch (restoreSuffixVersionTry onUpdateSuffix suffixId historyEntry)
    (Toast.error ("Error restoring suffix version"))

/-- The `try` body of `handleRestorePhasePromptVersion` (lines 328-351). -/
def restorePhasePromptVersionTry
    (onUpdatePhasePrompt : Option (String → String → String → Bool → CbResult))
    (phaseId promptId : String) (historyEntry : HistoryLogEntry) : HandlerRun :=
  match onUpdatePhasePrompt with
  | some f =>
    match f phaseId promptId historyEntry.text true with
    | CbResult.resolves true =>
      { calls := [PropCall.updatePhasePromptCall phaseId promptId historyEntry.text true]
        outcome := Except.ok [Toast.success ("Restored previous version of phase prompt")] }
    | CbResult.resolves false =>
      { calls := [PropCall.updatePhasePromptCall phaseId promptId historyEntry.text true]
        outcome := Except.ok [Toast.error ("Failed to restore phase prompt version")] }
    | CbResult.rejects =>
      { calls := [PropCall.updatePhasePromptCall phaseId promptId historyEntry.text true]
        outcome := Except.error () }
  | none =>
    { calls := [], outcome := Except.ok [Toast.error ("Failed to restore phase prompt version")] }

/-- `handleRestorePhasePromptVersion` of PromptBuilder. -/
def handleRestorePhasePromptVersion
    (onUpdatePhasePrompt : Option (String → String → String → Bool → CbResult))
    (phaseId promptId : String) (historyEntry : HistoryLogEntry) : HandlerRun :=
  runCatch (restorePhasePromptVersionTry onUpdatePhasePrompt phaseId promptId historyEntry)
    (Toast.error ("Error restoring phase prompt version"))

/-- The callback props of PromptBuilderProps reachable from a dispatch.  The
void-returning callbacks are modelled by their presence; the async update
callbacks carry their resolution behaviour.  The dedicated
`onRestorePrefix`/`onRestoreSuffix`/`onRestorePhasePrompt` props are part of
the interface but PromptBuilder's destructuring (lines 164-188) never reads
them, so no handler below can reach them. -/
structure Callbacks where
  hasOnSelectPrefix : Bool
  hasOnSelectSuffix : Bool
  hasOnSelectPhasePrompt : Bool
  onUpdatePrefix : Option (String → String → Bool → CbResult)
  onUpdateSuffix : Option (String → String → Bool → CbResult)
  onUpdatePhasePrompt : Option (String → String → String → Bool → CbResult)
  hasOnRestorePrefix : Bool
  hasOnRestoreSuffix : Bool
  hasOnRestorePhasePrompt : Bool
  hasOnDeprecatePrefix : Bool
  hasOnDeprecateSuffix : Bool
  hasOnDeprecatePhasePrompt : Bool
  hasOnCreatePrefix : Bool
  hasOnCreateSuffix : Bool
  hasOnCreatePhasePrompt : Bool

/-- The fragment collections PromptBuilder receives as props. -/
structure BuilderData where
  prefixesData : PrefixesData
  suffixesData : SuffixesData
  phasesConfig : PhasesConfig
  phasePromptsMap : PhasePromptsMap

/-- `Omit<PromptFragment, "id" | "length" | "history_log">`: the payload of a
create callback. -/
structure NewPrompt where
  text : String
  deprecated : Bool
deriving Repr, DecidableEq

/-- The non-'all' dropdown types a selection can carry (the source union
`"phase" | "prefix" | "suffix"`); `pfx` and `sfx` stand for "prefix" and
"suffix". -/
inductive SelType
  | phase
  | pfx
  | sfx
deriving Repr, DecidableEq

/-- `handleDropdownSelect` (lines 412-426): close the dropdown and forward
the selected item to the matching select prop when present; a phase item is
forwarded only when a phase id was passed. -/
def handleDropdownSelect (cbs : Callbacks) (item : PromptFragment)
    (t : SelType) (phaseId : Option String) : List PropCall :=
  match t with
  | SelType.pfx => if cbs.hasOnSelectPrefix then [PropCall.selectPrefixCall item] else []
  | SelType.sfx => if cbs.hasOnSelectSuffix then [PropCall.selectSuffixCall item] else []
  | SelType.phase =>
    match phaseId, cbs.hasOnSelectPhasePrompt with
    | some pid, true => [PropCall.selectPhasePromptCall item pid]
    | _, _ => []

/-- A user interaction dispatched through PromptBuilder. -/
inductive BuilderEvent
  | updatePrefixEv (id text : String) (persist : Bool)
  | updateSuffixEv (id text : String) (persist : Bool)
  | updatePhasePromptEv (phaseId promptId text : String) (persist : Bool)
  | restorePrefixEv (id : String) (entry : HistoryLogEntry)
  | restoreSuffixEv (id : String) (entry : HistoryLogEntry)
  | restorePhasePromptEv (phaseId promptId : String) (entry : HistoryLogEntry)
  | selectPrefixEv (f : PromptFragment)
  | selectSuffixEv (f : PromptFragment)
  | selectPhasePromptEv (f : PromptFragment) (phaseId : String)
  | deprecatePrefixEv (id : String)
  | deprecateSuffixEv (id : String)
  | deprecatePhasePromptEv (promptId phaseId : String)
  | createPrefixEv (np : NewPrompt)
  | createSuffixEv (np : NewPrompt)
  | createPhasePromptEv (phaseId : String) (np : NewPrompt)

/-- Modelled from the spec: the deprecate and create dispatches.  The panel
components (PrefixPanel, SuffixPanel, PhasePromptPanel) are not in the
repository; PromptBuilder passes the `onDeprecate...`/`onCreate...` props to
them unchanged (lines 448-449, 511-512, 698-699), and per the spec the
panels are presentational and only forward to the injected callback. -/
def passThroughDispatch (cbs : Callbacks) (ev : BuilderEvent) : List PropCall :=
  match ev with
  | BuilderEvent.deprecatePrefixEv id =>
    if cbs.hasOnDeprecatePrefix then [PropCall.deprecatePrefixCall id] else []
  | BuilderEvent.deprecateSuffixEv id =>
    if cbs.hasOnDeprecateSuffix then [PropCall.deprecateSuffixCall id] else []
  | BuilderEvent.deprecatePhasePromptEv promptId phaseId =>
    if cbs.hasOnDeprecatePhasePrompt then [PropCall.deprecatePhasePromptCall promptId phaseId] else []
  | BuilderEvent.createPrefixEv np =>
    if cbs.hasOnCreatePrefix then [PropCall.createPrefixCall np.text] else []
  | BuilderEvent.createSuffixEv np =>
    if cbs.hasOnCreateSuffix then [PropCall.createSuffixCall np.text] else []
  | BuilderEvent.createPhasePromptEv phaseId np =>
    if cbs.hasOnCreatePhasePrompt then [PropCall.createPhasePromptCall phaseId np.text] else []
  | _ => []

/-- One dispatch through PromptBuilder as wired in the JSX: updates and
restores go through the toast-wrapped handlers (restores reuse the update
callbacks, lines 447, 510, 697), selections go through
`handleDropdownSelect`, deprecates and creates are passed through.  The prop
data rides along unchanged: no handler writes to it. -/
def dispatchBuilder (cbs : Callbacks) (ev : BuilderEvent) (data : BuilderData) :
    BuilderData × HandlerRun :=
  match ev with
  | BuilderEvent.updatePrefixEv id text persist =>
    (data, handleUpdatePrefix cbs.onUpdatePrefix id text persist)
  | BuilderEvent.updateSuffixEv id text persist =>
    (data, handleUpdateSuffix cbs.onUpdateSuffix id text persist)
  | BuilderEvent.updatePhasePromptEv phaseId promptId text persist =>
    (data, handleUpdatePhasePrompt cbs.onUpdatePhasePrompt phaseId promptId text persist)
  | BuilderEvent.restorePrefixEv id entry =>
    (data, handleRestorePrefixVersion cbs.onUpdatePrefix id entry)
  | BuilderEvent.restoreSuffixEv id entry =>
    (data, handleRestoreSuffixVersion cbs.onUpdateSuffix id entry)
  | BuilderEvent.restorePhasePromptEv phaseId promptId entry =>
    (data, handleRestorePhasePromptVersion cbs.onUpdatePhasePrompt phaseId promptId entry)
  | BuilderEvent.selectPrefixEv f =>
    (data, { calls := handleDropdownSelect cbs f SelType.pfx none, outcome := Except.ok [] })
  | BuilderEvent.selectSuffixEv f =>
    (data, { calls := handleDropdownSelect cbs f SelType.sfx none, outcome := Except.ok [] })
  | BuilderEvent.selectPhasePromptEv f phaseId =>
    (data, { calls := handleDropdownSelect cbs f SelType.phase (some phaseId), outcome := Except.ok [] })
  | ev => (data, { calls := passThroughDispatch cbs ev, outcome := Except.ok [] })

/-- The local state of a PromptItem. -/
structure PromptItemState where
  isEditing : Bool
  editText : String
  showHistory : Bool
deriving Repr, DecidableEq

/-- A user interaction on a PromptItem. -/
inductive ItemEvent
  | editEv
  | updateEv (persist : Bool)
  | selectEv
  | restoreVersionEv (entry : HistoryLogEntry)
deriving Repr

/-- An invocation of one of PromptItem's callback props. -/
inductive ItemCall
  | updateCall (promptId text : String) (persist : Bool)
  | selectCall (f : PromptFragment)
  | restoreCall (promptId : String) (entry : HistoryLogEntry)
deriving Repr, DecidableEq

/-- PromptItem's handlers (lines 48-71): `handleEdit`, `handleUpdate`,
`handleSelect` and `handleRestoreVersion` update local state and forward to
the optional callbacks; the prompt prop rides along unchanged — the handlers
only read it. -/
def promptItemDispatch (hasOnUpdate hasOnSelect hasOnRestoreVersion : Bool)
    (prompt : PromptFragment) (st : PromptItemState) (ev : ItemEvent) :
    PromptFragment × PromptItemState × List ItemCall :=
  match ev with
  | ItemEvent.editEv =>
    (prompt, { st with editText := prompt.text, isEditing := true }, [])
  | ItemEvent.updateEv persist =>
    (prompt, { st with isEditing := false },
      if hasOnUpdate then [ItemCall.updateCall prompt.id st.editText persist] else [])
  | ItemEvent.selectEv =>
    (prompt, st, if hasOnSelect then [ItemCall.selectCall prompt] else [])
  | ItemEvent.restoreVersionEv entry =>
    (prompt, { st with showHistory := false },
      if hasOnRestoreVersion then [ItemCall.restoreCall prompt.id entry] else [])

/-- An entry rendered in the picker dropdown's list. -/
inductive ShownItem
  | phaseItem (phaseId : String) (f : PromptFragment)
  | prefixItem (f : PromptFragment)
  | suffixItem (f : PromptFragment)
deriving Repr, DecidableEq

/-- The fragment a shown item renders. -/
def ShownItem.fragment : ShownItem → PromptFragment
  | ShownItem.phaseItem _ f => f
  | ShownItem.prefixItem f => f
  | ShownItem.suffixItem f => f

/-- The phase sections of the dropdown (lines 580-604): for each configured
phase, the non-deprecated prompts of `phasePromptsMap[phase.id]`; nothing for
a phase with no map entry (optional chaining renders nothing). -/
def phaseSectionItems (phases : List Phase) (m : PhasePromptsMap) : List ShownItem :=
  match phases with
  | [] => []
  | phase :: rest =>
    (match lookupPhase m phase.id with
     | some pd =>
       (pd.prompts.filter (fun p => !p.deprecated)).map (ShownItem.phaseItem phase.id)
     | none => []) ++ phaseSectionItems rest m

/-- The dropdown's rendered item list (lines 549-644), in render order: the
filtered prefix list for type "prefix", the filtered suffix list for type
"suffix", the phase sections for types "phase" and "all", and for type "all"
additionally the first three filtered prefixes and the first three filtered
suffixes (`slice(0, 3)`). -/
def dropdownItems (t : DropdownType) (pre : PrefixesData) (suf : SuffixesData)
    (cfg : PhasesConfig) (m : PhasePromptsMap) : List ShownItem :=
  (if t = DropdownType.pfx then
    (pre.prefixes.filter (fun p => !p.deprecated)).map ShownItem.prefixItem
   else []) ++
  (if t = DropdownType.sfx then
    (suf.suffixes.filter (fun q => !q.deprecated)).map ShownItem.suffixItem
   else []) ++
  (if t = DropdownType.phase ∨ t = DropdownType.all then
    phaseSectionItems cfg.phases m
   else []) ++
  (if t = DropdownType.all then
    ((pre.prefixes.filter (fun p => !p.deprecated)).take 3).map ShownItem.prefixItem ++
    ((suf.suffixes.filter (fun q => !q.deprecated)).take 3).map ShownItem.suffixItem
   else [])

/-- The "No prompts available" condition (lines 646-662): type "prefix" with
no non-deprecated prefix, or type "suffix" with no non-deprecated suffix, or
type "phase" with every entry of `Object.values(phasePromptsMap)` holding no
non-deprecated prompt. -/
def noPromptsMessage (t : DropdownType) (pre : PrefixesData) (suf : SuffixesData)
    (m : PhasePromptsMap) : Bool :=
  (decide (t = DropdownType.pfx) &&
    (pre.prefixes.filter (fun p => !p.deprecated)).length == 0) ||
  (decide (t = DropdownType.sfx) &&
    (suf.suffixes.filter (fun q => !q.deprecated)).length == 0) ||
  (decide (t = DropdownType.phase) &&
    (phaseMapValues m).all
      (fun pd => (pd.prompts.filter (fun p => !p.deprecated)).length == 0))

/-- Claim side: the fragment of a prefix entry of the dropdown. -/
def prefixFragOf : ShownItem → Option PromptFragment
  | ShownItem.prefixItem f => some f
  | _ => none

/-- Claim side: the fragment of a suffix entry of the dropdown. -/
def suffixFragOf : ShownItem → Option PromptFragment
  | ShownItem.suffixItem f => some f
  | _ => none

/-- Claim side: the fragment of a phase entry of the dropdown. -/
def phaseFragOf : ShownItem → Option PromptFragment
  | ShownItem.phaseItem _ f => some f
  | _ => none

/-- Claim side: every non-deprecated phase prompt of every configured phase,
in order — the unlimited phase listing. -/
def allPhaseFrags (phases : List Phase) (m : PhasePromptsMap) : List PromptFragment :=
  match phases with
  | [] => []
  | phase :: rest =>
    (match lookupPhase m phase.id with
     | some pd => pd.prompts.filter (fun p => !p.deprecated)
     | none => []) ++ allPhaseFrags rest m

/-! ## Theorems -/

/-- A run whose outcome is a single success toast satisfies the toast contract
when the callback succeeded. -/
theorem toastContract_of_success {run : HandlerRun} {succeeded : Prop} {m : String}
    (h : run.outcome = Except.ok [Toast.success m]) (hs : succeeded) :
    toastContract run succeeded := by
  refine ⟨[Toast.success m], h, ?_, ?_⟩
  · exact ⟨fun _ => hs, fun _ => ⟨rfl, rfl⟩⟩
  · constructor
    · rintro ⟨h0, _⟩
      exact absurd h0 (by simp [successCount])
    · intro hns
      exact absurd hs hns

/-- A run whose outcome is a single error toast satisfies the toast contract
when the callback did not succeed. -/
theorem toastContract_of_error {run : HandlerRun} {succeeded : Prop} {m : String}
    (h : run.outcome = Except.ok [Toast.error m]) (hns : ¬ succeeded) :
    toastContract run succeeded := by
  refine ⟨[Toast.error m], h, ?_, ?_⟩
  · constructor
    · rintro ⟨_, h1⟩
      exact absurd h1 (by simp [errorCount])
    · intro hs
      exact absurd hs hns
  · exact ⟨fun _ => hns, fun _ => ⟨rfl, rfl⟩⟩

/-- C1: each of the three update handlers shows exactly one success toast and
no error toast when the injected callback is present and resolves to true,
shows exactly one error toast (and no success toast) when the callback is
absent, resolves to false, or rejects, and never lets an exception escape. -/
theorem update_handlers_toast_contract
    (cbP : Option (String → String → Bool → CbResult))
    (cbS : Option (String → String → Bool → CbResult))
    (cbPh : Option (String → String → String → Bool → CbResult))
    (pid sid phid prid txt : String) (persist : Bool) :
    toastContract (handleUpdatePrefix cbP pid txt persist) (cbSucceeds3 cbP pid txt persist) ∧
    toastContract (handleUpdateSuffix cbS sid txt persist) (cbSucceeds3 cbS sid txt persist) ∧
    toastContract (handleUpdatePhasePrompt cbPh phid prid txt persist)
      (cbSucceeds4 cbPh phid prid txt persist) := by
  refine ⟨?_, ?_, ?_⟩
  · cases cbP with
    | none =>
      exact toastContract_of_error rfl (by rintro ⟨g, hg, _⟩; exact Option.noConfusion hg)
    | some f =>
      rcases hres : f pid txt persist with b | _
      · cases b
        · refine toastContract_of_error (m := "Failed to update prefix") ?_ ?_
          · simp only [handleUpdatePrefix, updatePrefixTry, runCatch, hres]
          · rintro ⟨g, hg, hr⟩
            cases Option.some.inj hg
            rw [hres] at hr
            exact CbResult.noConfusion hr (fun hb => Bool.noConfusion hb)
        · refine toastContract_of_success
            (m := if persist then "Prefix updated and persisted"
              else "Prefix updated for the current session") ?_ ⟨f, rfl, hres⟩
          simp only [handleUpdatePrefix, updatePrefixTry, runCatch, hres]
      · refine toastContract_of_error (m := "Error updating prefix") ?_ ?_
        · simp only [handleUpdatePrefix, updatePrefixTry, runCatch, hres]
        · rintro ⟨g, hg, hr⟩
          cases Option.some.inj hg
          rw [hres] at hr
          exact CbResult.noConfusion hr
  · cases cbS with
    | none =>
      exact toastContract_of_error rfl (by rintro ⟨g, hg, _⟩; exact Option.noConfusion hg)
    | some f =>
      rcases hres : f sid txt persist with b | _
      · cases b
        · refine toastContract_of_error (m := "Failed to update suffix") ?_ ?_
          · simp only [handleUpdateSuffix, updateSuffixTry, runCatch, hres]
          · rintro ⟨g, hg, hr⟩
            cases Option.some.inj hg
            rw [hres] at hr
            exact CbResult.noConfusion hr (fun hb => Bool.noConfusion hb)
        · refine toastContract_of_success
            (m := if persist then "Suffix updated and persisted"
              else "Suffix updated for the current session") ?_ ⟨f, rfl, hres⟩
          simp only [handleUpdateSuffix, updateSuffixTry, runCatch, hres]
      · refine toastContract_of_error (m := "Error updating suffix") ?_ ?_
        · simp only [handleUpdateSuffix, updateSuffixTry, runCatch, hres]
        · rintro ⟨g, hg, hr⟩
          cases Option.some.inj hg
          rw [hres] at hr
          exact CbResult.noConfusion hr
  · cases cbPh with
    | none =>
      exact toastContract_of_error rfl (by rintro ⟨g, hg, _⟩; exact Option.noConfusion hg)
    | some f =>
      rcases hres : f phid prid txt persist with b | _
      · cases b
        · refine toastContract_of_error (m := "Failed to update phase prompt") ?_ ?_
          · simp only [handleUpdatePhasePrompt, updatePhasePromptTry, runCatch, hres]
          · rintro ⟨g, hg, hr⟩
            cases Option.some.inj hg
            rw [hres] at hr
            exact CbResult.noConfusion hr (fun hb => Bool.noConfusion hb)
        · refine toastContract_of_success
            (m := if persist then "Phase prompt updated and persisted"
              else "Phase prompt updated for the current session") ?_ ⟨f, rfl, hres⟩
          simp only [handleUpdatePhasePrompt, updatePhasePromptTry, runCatch, hres]
      · refine toastContract_of_error (m := "Error updating phase prompt") ?_ ?_
        · simp only [handleUpdatePhasePrompt, updatePhasePromptTry, runCatch, hres]
        · rintro ⟨g, hg, hr⟩
          cases Option.some.inj hg
          rw [hres] at hr
          exact CbResult.noConfusion hr

/-- C2: for a keydown on the main textarea that is not a Ctrl generation
shortcut, the dropdown opens exactly when the cursor is at the start of a
line and the key is one of '/', '#', '$', '@', with type all/phase/prefix/
suffix respectively, and the default insertion is then prevented; at any
other cursor position these keys never open the dropdown. -/
theorem keydown_dropdown_trigger (gen tidy : Bool) (e : KeyEvent)
    (hg : ¬(e.ctrlKey = true ∧ e.key = "Enter"))
    (ht : ¬(e.ctrlKey = true ∧ e.key = "t")) :
    (handleKeyDown gen tidy e).dropdownOpened =
      (if atLineStart e.value e.selectionStart then triggerTypeOf e.key else none) ∧
    ((handleKeyDown gen tidy e).dropdownOpened.isSome ↔
      (atLineStart e.value e.selectionStart = true ∧
        (e.key = "/" ∨ e.key = "#" ∨ e.key = "$" ∨ e.key = "@"))) ∧
    ((handleKeyDown gen tidy e).dropdownOpened.isSome →
      (handleKeyDown gen tidy e).preventDefault = true) := by
  have h1 : ¬((e.ctrlKey && e.key == "Enter") = true) := by
    simp only [Bool.and_eq_true, beq_iff_eq]
    exact hg
  have h2 : ¬((e.ctrlKey && e.key == "t") = true) := by
    simp only [Bool.and_eq_true, beq_iff_eq]
    exact ht
  have hrw : handleKeyDown gen tidy e =
      (if atLineStart e.value e.selectionStart then
        (if e.key == "/" then dropdownTrigger DropdownType.all e
         else if e.key == "#" then dropdownTrigger DropdownType.phase e
         else if e.key == "$" then dropdownTrigger DropdownType.pfx e
         else if e.key == "@" then dropdownTrigger DropdownType.sfx e
         else keyNoAction)
       else keyNoAction) := by
    simp only [handleKeyDown]
    rw [if_neg h1, if_neg h2]
  rw [hrw]
  cases hline : atLineStart e.value e.selectionStart with
  | false => simp [keyNoAction]
  | true =>
    by_cases hk1 : e.key = "/"
    · simp [hk1, triggerTypeOf, dropdownTrigger]
    · by_cases hk2 : e.key = "#"
      · simp [hk2, triggerTypeOf, dropdownTrigger]
      · by_cases hk3 : e.key = "$"
        · simp [hk3, triggerTypeOf, dropdownTrigger]
        · by_cases hk4 : e.key = "@"
          · simp [hk4, triggerTypeOf, dropdownTrigger]
          · simp [beq_iff_eq, hk1, hk2, hk3, hk4, triggerTypeOf, keyNoAction]

/-- Witness for C2 at a concrete event: '#' typed right after a newline opens
the phase dropdown and prevents the default insertion. -/
theorem keydown_dropdown_trigger_witness :
    (handleKeyDown false false ⟨false, "#", ['a', 'b', '\n'], 3⟩).dropdownOpened =
      some DropdownType.phase ∧
    (handleKeyDown false false ⟨false, "#", ['a', 'b', '\n'], 3⟩).preventDefault = true := by
  have h := keydown_dropdown_trigger false false ⟨false, "#", ['a', 'b', '\n'], 3⟩
    (by decide) (by decide)
  constructor
  · rw [h.1]
    decide
  · apply h.2.2
    rw [h.1]
    decide

/-- C7: Ctrl+Enter invokes onGenerate exactly once and Ctrl+t invokes
onTidyAndGenerate exactly once (when the respective prop is present), each
preventing the default and leaving the dropdown closed. -/
theorem ctrl_shortcuts_generate (v : List Char) (s : Nat) (b : Bool) :
    handleKeyDown true b ⟨true, "Enter", v, s⟩ =
      { preventDefault := true, generateCalls := 1, tidyCalls := 0,
        dropdownOpened := none, dropdownPos := none } ∧
    handleKeyDown b true ⟨true, "t", v, s⟩ =
      { preventDefault := true, generateCalls := 0, tidyCalls := 1,
        dropdownOpened := none, dropdownPos := none } := by
  constructor <;> simp [handleKeyDown, keyNoAction]

/-- `splitNL` never returns the empty list. -/
theorem splitNL_ne_nil (l : List Char) : splitNL l ≠ [] := by
  cases l with
  | nil => simp [splitNL]
  | cons c cs =>
    simp only [splitNL]
    split
    · simp
    · split <;> simp

/-- Counting a newline at the head. -/
theorem count_cons_self (cs : List Char) :
    ('\n' :: cs).count '\n' = cs.count '\n' + 1 := by
  simp [List.count_cons]

/-- Counting a non-newline at the head. -/
theorem count_cons_ne (c : Char) (cs : List Char) (hc : ¬(c = '\n')) :
    (c :: cs).count '\n' = cs.count '\n' := by
  simp [List.count_cons, hc]

/-- The number of segments of `splitNL` is the newline count plus one. -/
theorem splitNL_length (l : List Char) : (splitNL l).length = l.count '\n' + 1 := by
  induction l with
  | nil => simp [splitNL]
  | cons c cs ih =>
    by_cases hc : c = '\n'
    · subst hc
      simp [splitNL, count_cons_self, ih]
    · rw [count_cons_ne c cs hc]
      simp only [splitNL, if_neg hc]
      rcases hS : splitNL cs with _ | ⟨r, rs⟩
      · exact absurd hS (splitNL_ne_nil cs)
      · rw [hS] at ih
        simpa using ih

/-- A text without newlines splits into itself alone. -/
theorem splitNL_of_count_zero (l : List Char) (h : l.count '\n' = 0) :
    splitNL l = [l] := by
  induction l with
  | nil => simp [splitNL]
  | cons c cs ih =>
    have hc : ¬(c = '\n') := by
      intro he
      subst he
      rw [count_cons_self] at h
      exact Nat.succ_ne_zero _ h
    have hcs : cs.count '\n' = 0 := by
      rw [count_cons_ne c cs hc] at h
      exact h
    simp only [splitNL, if_neg hc, ih hcs]

/-- A leading newline does not change the last line. -/
theorem lastLineOf_newline (cs : List Char) : lastLineOf ('\n' :: cs) = lastLineOf cs := by
  have hsp : splitNL ('\n' :: cs) = [] :: splitNL cs := by simp [splitNL]
  rcases hS : splitNL cs with _ | ⟨r, rs⟩
  · exact absurd hS (splitNL_ne_nil cs)
  · rw [lastLineOf, lastLineOf, hsp, hS]
    simp [List.getD_cons_succ]

/-- Without newlines the last line is the whole text. -/
theorem lastLineOf_count_zero (l : List Char) (h : l.count '\n' = 0) : lastLineOf l = l := by
  rw [lastLineOf, splitNL_of_count_zero l h]
  simp

/-- A leading non-newline character does not change the last line when a
newline follows somewhere. -/
theorem lastLineOf_cons_ne (c : Char) (cs : List Char) (hc : ¬(c = '\n'))
    (h0 : ¬(cs.count '\n' = 0)) : lastLineOf (c :: cs) = lastLineOf cs := by
  rcases hS : splitNL cs with _ | ⟨r, rs⟩
  · exact absurd hS (splitNL_ne_nil cs)
  · have hsp : splitNL (c :: cs) = (c :: r) :: rs := by
      simp only [splitNL, if_neg hc, hS]
    have hlen : (splitNL cs).length = cs.count '\n' + 1 := splitNL_length cs
    rw [hS] at hlen
    rcases rs with _ | ⟨z, zs⟩
    · simp at hlen
      exact absurd hlen h0
    · rw [lastLineOf, lastLineOf, hsp, hS]
      simp [List.getD_cons_succ]

/-- The line-length fold computes the length of the last line (plus the seed
when there is no newline at all). -/
theorem foldl_lineLen (l : List Char) (n : Nat) :
    l.foldl (fun acc c => if c = '\n' then 0 else acc + 1) n =
      if l.count '\n' = 0 then n + l.length else (lastLineOf l).length := by
  induction l generalizing n with
  | nil => simp
  | cons c cs ih =>
    by_cases hc : c = '\n'
    · subst hc
      have hstep : List.foldl (fun acc c => if c = '\n' then 0 else acc + 1) n ('\n' :: cs) =
          List.foldl (fun acc c => if c = '\n' then 0 else acc + 1) 0 cs := by
        simp
      rw [hstep, ih 0, count_cons_self]
      simp only [Nat.succ_ne_zero, if_false]
      rw [lastLineOf_newline]
      by_cases h0 : cs.count '\n' = 0
      · rw [if_pos h0, lastLineOf_count_zero cs h0]
        simp
      · rw [if_neg h0]
    · have hstep : List.foldl (fun acc c => if c = '\n' then 0 else acc + 1) n (c :: cs) =
          List.foldl (fun acc c => if c = '\n' then 0 else acc + 1) (n + 1) cs := by
        simp [hc]
      rw [hstep, ih (n + 1), count_cons_ne c cs hc]
      by_cases h0 : cs.count '\n' = 0
      · rw [if_pos h0, if_pos h0]
        simp
        omega
      · rw [if_neg h0, if_neg h0, lastLineOf_cons_ne c cs hc h0]

/-- The claim-side line length equals the length of `splitNL`'s last line. -/
theorem curLineLen_eq_lastLineOf (l : List Char) : curLineLen l = (lastLineOf l).length := by
  rw [curLineLen, foldl_lineLen l 0]
  by_cases h0 : l.count '\n' = 0
  · rw [if_pos h0, lastLineOf_count_zero l h0]
    simp
  · rw [if_neg h0]

/-- C5: when a picker trigger fires, the dropdown position is set from the
text before the cursor by the hard-coded pixel metrics: top is 24 times the
number of newline characters before the cursor plus 30, and left is 8 times
the length of the current line up to the cursor plus 10. -/
theorem dropdown_position_metrics (value : List Char) (cursor : Nat) :
    (dropdownPosition value cursor).top = (value.take cursor).count '\n' * 24 + 30 ∧
    (dropdownPosition value cursor).left = curLineLen (value.take cursor) * 8 + 10 ∧
    (∀ (t : DropdownType) (e : KeyEvent),
      (dropdownTrigger t e).dropdownPos = some (dropdownPosition e.value e.selectionStart)) := by
  have hd : dropdownPosition value cursor =
      { top := ((splitNL (value.take cursor)).length - 1) * 24 + 30
        left := (lastLineOf (value.take cursor)).length * 8 + 10 } := rfl
  refine ⟨?_, ?_, fun t e => rfl⟩
  · rw [hd]
    show ((splitNL (value.take cursor)).length - 1) * 24 + 30 = _
    rw [splitNL_length]
    simp
  · rw [hd, curLineLen_eq_lastLineOf]

/-- The history comparator is transitive. -/
theorem historyLe_trans (a b c : HistoryLogEntry) (hab : historyLe a b = true)
    (hbc : historyLe b c = true) : historyLe a c = true := by
  simp only [historyLe, decide_eq_true_eq] at *
  exact le_trans hbc hab

/-- The history comparator is total. -/
theorem historyLe_total (a b : HistoryLogEntry) : (historyLe a b || historyLe b a) = true := by
  simp only [historyLe, Bool.or_eq_true, decide_eq_true_eq]
  exact le_total b.timestamp a.timestamp

/-- C8: the history dialog displays a permutation of `prompt.history_log`
ordered by timestamp descending (newest first), leaves the prop's
`history_log` itself unchanged, and shows the "No history available" message
exactly when the log is empty. -/
theorem history_dialog_sorted (p : PromptFragment) :
    (promptItemHistoryDialog p).1.Perm p.history_log ∧
    List.Pairwise (fun a b => b.timestamp ≤ a.timestamp) (promptItemHistoryDialog p).1 ∧
    ((promptItemHistoryDialog p).2.1 = true ↔ p.history_log = []) ∧
    (promptItemHistoryDialog p).2.2 = p := by
  refine ⟨?_, ?_, ?_, rfl⟩
  · exact List.mergeSort_perm p.history_log historyLe
  · have h := List.sorted_mergeSort historyLe_trans historyLe_total p.history_log
    exact h.imp (fun hab => by
      simpa only [historyLe, decide_eq_true_eq] using hab)
  · have hlen : (sortedHistory p.history_log).length = p.history_log.length :=
      (List.mergeSort_perm p.history_log historyLe).length_eq
    show ((sortedHistory p.history_log).length == 0) = true ↔ _
    rw [beq_iff_eq, hlen, List.length_eq_zero]

/-- The update-prefix handler either makes no call (absent callback) or calls
the update callback once with exactly its own arguments. -/
theorem handleUpdatePrefix_calls (cb : Option (String → String → Bool → CbResult))
    (a b : String) (c : Bool) :
    (handleUpdatePrefix cb a b c).calls = [] ∨
    (handleUpdatePrefix cb a b c).calls = [PropCall.updatePrefixCall a b c] := by
  cases cb with
  | none => left; rfl
  | some f =>
    right
    show (updatePrefixTry (some f) a b c).calls = _
    rcases hres : f a b c with b' | _
    · cases b' <;> simp [updatePrefixTry, hres]
    · simp [updatePrefixTry, hres]

/-- The update-suffix handler either makes no call or calls the update
callback once with its own arguments. -/
theorem handleUpdateSuffix_calls (cb : Option (String → String → Bool → CbResult))
    (a b : String) (c : Bool) :
    (handleUpdateSuffix cb a b c).calls = [] ∨
    (handleUpdateSuffix cb a b c).calls = [PropCall.updateSuffixCall a b c] := by
  cases cb with
  | none => left; rfl
  | some f =>
    right
    show (updateSuffixTry (some f) a b c).calls = _
    rcases hres : f a b c with b' | _
    · cases b' <;> simp [updateSuffixTry, hres]
    · simp [updateSuffixTry, hres]

/-- The update-phase-prompt handler either makes no call or calls the update
callback once with its own arguments. -/
theorem handleUpdatePhasePrompt_calls
    (cb : Option (String → String → String → Bool → CbResult))
    (a b c : String) (d : Bool) :
    (handleUpdatePhasePrompt cb a b c d).calls = [] ∨
    (handleUpdatePhasePrompt cb a b c d).calls = [PropCall.updatePhasePromptCall a b c d] := by
  cases cb with
  | none => left; rfl
  | some f =>
    right
    show (updatePhasePromptTry (some f) a b c d).calls = _
    rcases hres : f a b c d with b' | _
    · cases b' <;> simp [updatePhasePromptTry, hres]
    · simp [updatePhasePromptTry, hres]

/-- With the update callback present, a prefix restore calls it exactly once,
with the fragment id, the history entry's text and persistChange = true. -/
theorem handleRestorePrefixVersion_calls (f : String → String → Bool → CbResult)
    (pid : String) (entry : HistoryLogEntry) :
    (handleRestorePrefixVersion (some f) pid entry).calls =
      [PropCall.updatePrefixCall pid entry.text true] := by
  show (restorePrefixVersionTry (some f) pid entry).calls = _
  rcases hres : f pid entry.text true with b' | _
  · cases b' <;> simp [restorePrefixVersionTry, hres]
  · simp [restorePrefixVersionTry, hres]

/-- With the update callback present, a suffix restore calls it exactly once,
with the fragment id, the history entry's text and persistChange = true. -/
theorem handleRestoreSuffixVersion_calls (f : String → String → Bool → CbResult)
    (sid : String) (entry : HistoryLogEntry) :
    (handleRestoreSuffixVersion (some f) sid entry).calls =
      [PropCall.updateSuffixCall sid entry.text true] := by
  show (restoreSuffixVersionTry (some f) sid entry).calls = _
  rcases hres : f sid entry.text true with b' | _
  · cases b' <;> simp [restoreSuffixVersionTry, hres]
  · simp [restoreSuffixVersionTry, hres]

/-- With the update callback present, a phase-prompt restore calls it exactly
once, with the phase id, prompt id, the entry's text and true. -/
theorem handleRestorePhasePromptVersion_calls
    (f : String → String → String → Bool → CbResult)
    (phid prid : String) (entry : HistoryLogEntry) :
    (handleRestorePhasePromptVersion (some f) phid prid entry).calls =
      [PropCall.updatePhasePromptCall phid prid entry.text true] := by
  show (restorePhasePromptVersionTry (some f) phid prid entry).calls = _
  rcases hres : f phid prid entry.text true with b' | _
  · cases b' <;> simp [restorePhasePromptVersionTry, hres]
  · simp [restorePhasePromptVersionTry, hres]

/-- With the update callback absent, a restore makes no call at all. -/
theorem handleRestoreVersion_calls_none (pid sid phid prid : String)
    (entry : HistoryLogEntry) :
    (handleRestorePrefixVersion none pid entry).calls = [] ∧
    (handleRestoreSuffixVersion none sid entry).calls = [] ∧
    (handleRestorePhasePromptVersion none phid prid entry).calls = [] :=
  ⟨rfl, rfl, rfl⟩

/-- C3: restoring a historical version is dispatched as a persisted update:
each restore handler calls the matching update callback exactly once with the
fragment id(s), the history entry's text and persistChange = true, and no
dispatch of PromptBuilder ever invokes one of the dedicated
onRestorePrefix/onRestoreSuffix/onRestorePhasePrompt props. -/
theorem restore_dispatches_persisted_update :
    (∀ (f : String → String → Bool → CbResult) (pid : String) (entry : HistoryLogEntry),
      (handleRestorePrefixVersion (some f) pid entry).calls =
        [PropCall.updatePrefixCall pid entry.text true]) ∧
    (∀ (f : String → String → Bool → CbResult) (sid : String) (entry : HistoryLogEntry),
      (handleRestoreSuffixVersion (some f) sid entry).calls =
        [PropCall.updateSuffixCall sid entry.text true]) ∧
    (∀ (f : String → String → String → Bool → CbResult) (phid prid : String)
        (entry : HistoryLogEntry),
      (handleRestorePhasePromptVersion (some f) phid prid entry).calls =
        [PropCall.updatePhasePromptCall phid prid entry.text true]) ∧
    (∀ (cbs : Callbacks) (ev : BuilderEvent) (data : BuilderData),
      ((dispatchBuilder cbs ev data).2.calls.countP (fun c => c.isRestoreCall)) = 0) := by
  refine ⟨handleRestorePrefixVersion_calls, handleRestoreSuffixVersion_calls,
    handleRestorePhasePromptVersion_calls, ?_⟩
  intro cbs ev data
  cases ev with
  | updatePrefixEv id text persist =>
    rcases handleUpdatePrefix_calls cbs.onUpdatePrefix id text persist with h | h <;>
      simp [dispatchBuilder, h, PropCall.isRestoreCall]
  | updateSuffixEv id text persist =>
    rcases handleUpdateSuffix_calls cbs.onUpdateSuffix id text persist with h | h <;>
      simp [dispatchBuilder, h, PropCall.isRestoreCall]
  | updatePhasePromptEv phaseId promptId text persist =>
    rcases handleUpdatePhasePrompt_calls cbs.onUpdatePhasePrompt phaseId promptId text persist
      with h | h <;> simp [dispatchBuilder, h, PropCall.isRestoreCall]
  | restorePrefixEv id entry =>
    rcases hcb : cbs.onUpdatePrefix with _ | f
    · simp [dispatchBuilder, hcb, handleRestorePrefixVersion, restorePrefixVersionTry, runCatch]
    · simp [dispatchBuilder, hcb, handleRestorePrefixVersion_calls, PropCall.isRestoreCall]
  | restoreSuffixEv id entry =>
    rcases hcb : cbs.onUpdateSuffix with _ | f
    · simp [dispatchBuilder, hcb, handleRestoreSuffixVersion, restoreSuffixVersionTry, runCatch]
    · simp [dispatchBuilder, hcb, handleRestoreSuffixVersion_calls, PropCall.isRestoreCall]
  | restorePhasePromptEv phaseId promptId entry =>
    rcases hcb : cbs.onUpdatePhasePrompt with _ | f
    · simp [dispatchBuilder, hcb, handleRestorePhasePromptVersion,
        restorePhasePromptVersionTry, runCatch]
    · simp [dispatchBuilder, hcb, handleRestorePhasePromptVersion_calls, PropCall.isRestoreCall]
  | selectPrefixEv f =>
    rcases hsel : cbs.hasOnSelectPrefix with _ | _ <;>
      simp [dispatchBuilder, handleDropdownSelect, hsel, PropCall.isRestoreCall]
  | selectSuffixEv f =>
    rcases hsel : cbs.hasOnSelectSuffix with _ | _ <;>
      simp [dispatchBuilder, handleDropdownSelect, hsel, PropCall.isRestoreCall]
  | selectPhasePromptEv f phaseId =>
    rcases hsel : cbs.hasOnSelectPhasePrompt with _ | _ <;>
      simp [dispatchBuilder, handleDropdownSelect, hsel, PropCall.isRestoreCall]
  | deprecatePrefixEv id =>
    rcases hd : cbs.hasOnDeprecatePrefix with _ | _ <;>
      simp [dispatchBuilder, passThroughDispatch, hd, PropCall.isRestoreCall]
  | deprecateSuffixEv id =>
    rcases hd : cbs.hasOnDeprecateSuffix with _ | _ <;>
      simp [dispatchBuilder, passThroughDispatch, hd, PropCall.isRestoreCall]
  | deprecatePhasePromptEv promptId phaseId =>
    rcases hd : cbs.hasOnDeprecatePhasePrompt with _ | _ <;>
      simp [dispatchBuilder, passThroughDispatch, hd, PropCall.isRestoreCall]
  | createPrefixEv np =>
    rcases hd : cbs.hasOnCreatePrefix with _ | _ <;>
      simp [dispatchBuilder, passThroughDispatch, hd, PropCall.isRestoreCall]
  | createSuffixEv np =>
    rcases hd : cbs.hasOnCreateSuffix with _ | _ <;>
      simp [dispatchBuilder, passThroughDispatch, hd, PropCall.isRestoreCall]
  | createPhasePromptEv phaseId np =>
    rcases hd : cbs.hasOnCreatePhasePrompt with _ | _ <;>
      simp [dispatchBuilder, passThroughDispatch, hd, PropCall.isRestoreCall]

/-- C6: no dispatch mutates the fragment data received through props: the
collections come back from every PromptBuilder dispatch unchanged, the prompt
prop comes back from every PromptItem handler unchanged (its history_log
included), and the history dialog's sort leaves the prompt prop as it was;
changes are dispatched only through the callback invocations recorded. -/
theorem handlers_preserve_prop_data :
    (∀ (cbs : Callbacks) (ev : BuilderEvent) (data : BuilderData),
      (dispatchBuilder cbs ev data).1 = data) ∧
    (∀ (hu hs hr : Bool) (prompt : PromptFragment) (st : PromptItemState) (ev : ItemEvent),
      (promptItemDispatch hu hs hr prompt st ev).1 = prompt ∧
      (promptItemDispatch hu hs hr prompt st ev).1.history_log = prompt.history_log) ∧
    (∀ p : PromptFragment, (promptItemHistoryDialog p).2.2 = p) := by
  refine ⟨?_, ?_, fun p => rfl⟩
  · intro cbs ev data
    cases ev <;> rfl
  · intro hu hs hr prompt st ev
    cases ev <;> exact ⟨rfl, rfl⟩

/-- Mapping a constructor that keeps the fragment over a deprecated-filter
yields only non-deprecated entries. -/
theorem all_nd_map_filter (l : List PromptFragment) (F : PromptFragment → ShownItem)
    (hF : ∀ f, (F f).fragment = f) :
    ((l.filter (fun p => !p.deprecated)).map F).all
      (fun it => !(it.fragment).deprecated) = true := by
  rw [List.all_eq_true]
  intro it hit
  rw [List.mem_map] at hit
  obtain ⟨f, hf, rfl⟩ := hit
  rw [hF]
  exact (List.mem_filter.mp hf).2

/-- The same, for a `take` of the filtered list. -/
theorem all_nd_map_take_filter (l : List PromptFragment) (n : Nat)
    (F : PromptFragment → ShownItem) (hF : ∀ f, (F f).fragment = f) :
    (((l.filter (fun p => !p.deprecated)).take n).map F).all
      (fun it => !(it.fragment).deprecated) = true := by
  rw [List.all_eq_true]
  intro it hit
  rw [List.mem_map] at hit
  obtain ⟨f, hf, rfl⟩ := hit
  rw [hF]
  exact (List.mem_filter.mp ((List.take_sublist n _).subset hf)).2

/-- Every phase section entry is non-deprecated. -/
theorem all_nd_phaseSection (phases : List Phase) (m : PhasePromptsMap) :
    (phaseSectionItems phases m).all (fun it => !(it.fragment).deprecated) = true := by
  induction phases with
  | nil => rfl
  | cons ph rest ih =>
    simp only [phaseSectionItems, List.all_append, Bool.and_eq_true]
    refine ⟨?_, ih⟩
    cases h : lookupPhase m ph.id with
    | none => simp [h]
    | some pd =>
      simp only [h]
      exact all_nd_map_filter _ (ShownItem.phaseItem ph.id) (fun f => rfl)

/-- C4: for every dropdown type, every fragment listed in the picker dropdown
has deprecated = false — deprecated prefixes, suffixes and phase prompts are
filtered out of every listing. -/
theorem dropdown_lists_only_non_deprecated (t : DropdownType) (pre : PrefixesData)
    (suf : SuffixesData) (cfg : PhasesConfig) (m : PhasePromptsMap) :
    (dropdownItems t pre suf cfg m).all (fun it => !(it.fragment).deprecated) = true := by
  simp only [dropdownItems, List.all_append, Bool.and_eq_true]
  refine ⟨⟨⟨?_, ?_⟩, ?_⟩, ?_⟩
  · split
    · exact all_nd_map_filter _ ShownItem.prefixItem (fun f => rfl)
    · rfl
  · split
    · exact all_nd_map_filter _ ShownItem.suffixItem (fun f => rfl)
    · rfl
  · split
    · exact all_nd_phaseSection cfg.phases m
    · rfl
  · split
    · simp only [List.all_append, Bool.and_eq_true]
      exact ⟨all_nd_map_take_filter _ 3 ShownItem.prefixItem (fun f => rfl),
        all_nd_map_take_filter _ 3 ShownItem.suffixItem (fun f => rfl)⟩
    · rfl

/-- Phase sections contribute no prefix entries. -/
theorem filterMap_prefixFragOf_phaseSection (phases : List Phase) (m : PhasePromptsMap) :
    (phaseSectionItems phases m).filterMap prefixFragOf = [] := by
  induction phases with
  | nil => rfl
  | cons ph rest ih =>
    simp only [phaseSectionItems, List.filterMap_append, ih, List.append_nil]
    cases h : lookupPhase m ph.id with
    | none => simp
    | some pd =>
      simp only [List.filterMap_map]
      rw [List.filterMap_eq_nil_iff]
      intro a _
      rfl

/-- Phase sections contribute no suffix entries. -/
theorem filterMap_suffixFragOf_phaseSection (phases : List Phase) (m : PhasePromptsMap) :
    (phaseSectionItems phases m).filterMap suffixFragOf = [] := by
  induction phases with
  | nil => rfl
  | cons ph rest ih =>
    simp only [phaseSectionItems, List.filterMap_append, ih, List.append_nil]
    cases h : lookupPhase m ph.id with
    | none => simp
    | some pd =>
      simp only [List.filterMap_map]
      rw [List.filterMap_eq_nil_iff]
      intro a _
      rfl

/-- The phase entries of the phase sections are exactly all non-deprecated
phase prompts of all configured phases. -/
theorem filterMap_phaseFragOf_phaseSection (phases : List Phase) (m : PhasePromptsMap) :
    (phaseSectionItems phases m).filterMap phaseFragOf = allPhaseFrags phases m := by
  induction phases with
  | nil => rfl
  | cons ph rest ih =>
    simp only [phaseSectionItems, allPhaseFrags, List.filterMap_append, ih]
    congr 1
    cases h : lookupPhase m ph.id with
    | none => simp
    | some pd =>
      simp only [List.filterMap_map]
      have hcomp : (phaseFragOf ∘ ShownItem.phaseItem ph.id) = some := rfl
      rw [hcomp, List.filterMap_some]

/-- C9: in the 'all' dropdown the prefix entries are exactly the first three
non-deprecated prefixes in collection order (so at most 3), the suffix
entries exactly the first three non-deprecated suffixes (so at most 3), and
the phase entries are all non-deprecated prompts of every configured phase —
unlimited. -/
theorem all_dropdown_limits (pre : PrefixesData) (suf : SuffixesData)
    (cfg : PhasesConfig) (m : PhasePromptsMap) :
    (dropdownItems DropdownType.all pre suf cfg m).filterMap prefixFragOf =
      (pre.prefixes.filter (fun p => !p.deprecated)).take 3 ∧
    (dropdownItems DropdownType.all pre suf cfg m).filterMap suffixFragOf =
      (suf.suffixes.filter (fun q => !q.deprecated)).take 3 ∧
    ((dropdownItems DropdownType.all pre suf cfg m).filterMap prefixFragOf).length ≤ 3 ∧
    ((dropdownItems DropdownType.all pre suf cfg m).filterMap suffixFragOf).length ≤ 3 ∧
    (dropdownItems DropdownType.all pre suf cfg m).filterMap phaseFragOf =
      allPhaseFrags cfg.phases m := by
  have hit : dropdownItems DropdownType.all pre suf cfg m =
      phaseSectionItems cfg.phases m ++
      (((pre.prefixes.filter (fun p => !p.deprecated)).take 3).map ShownItem.prefixItem ++
       ((suf.suffixes.filter (fun q => !q.deprecated)).take 3).map ShownItem.suffixItem) := by
    simp [dropdownItems]
  have hpcomp : (prefixFragOf ∘ ShownItem.prefixItem) = some := rfl
  have hscomp : (suffixFragOf ∘ ShownItem.suffixItem) = some := rfl
  have hp : (dropdownItems DropdownType.all pre suf cfg m).filterMap prefixFragOf =
      (pre.prefixes.filter (fun p => !p.deprecated)).take 3 := by
    rw [hit, List.filterMap_append, List.filterMap_append,
      filterMap_prefixFragOf_phaseSection, List.filterMap_map, hpcomp, List.filterMap_some,
      List.filterMap_map]
    have : (prefixFragOf ∘ ShownItem.suffixItem) = fun _ => none := rfl
    rw [this]
    simp
  have hs : (dropdownItems DropdownType.all pre suf cfg m).filterMap suffixFragOf =
      (suf.suffixes.filter (fun q => !q.deprecated)).take 3 := by
    rw [hit, List.filterMap_append, List.filterMap_append,
      filterMap_suffixFragOf_phaseSection, List.filterMap_map, List.filterMap_map,
      hscomp, List.filterMap_some]
    have : (suffixFragOf ∘ ShownItem.prefixItem) = fun _ => none := rfl
    rw [this]
    simp
  refine ⟨hp, hs, ?_, ?_, ?_⟩
  · rw [hp]
    exact List.length_take_le 3 _
  · rw [hs]
    exact List.length_take_le 3 _
  · rw [hit, List.filterMap_append, List.filterMap_append,
      filterMap_phaseFragOf_phaseSection, List.filterMap_map, List.filterMap_map]
    have h1 : (phaseFragOf ∘ ShownItem.prefixItem) = fun _ => none := rfl
    have h2 : (phaseFragOf ∘ ShownItem.suffixItem) = fun _ => none := rfl
    rw [h1, h2]
    simp

/-- C10: the "No prompts available" message shows exactly when the dropdown
type is 'prefix', 'suffix' or 'phase' and the corresponding non-deprecated
listing is empty (for 'phase': every entry of the phase-prompts map); for
type 'all' it never shows, whatever the data. -/
theorem no_prompts_message_iff (pre : PrefixesData) (suf : SuffixesData) (m : PhasePromptsMap) :
    noPromptsMessage DropdownType.all pre suf m = false ∧
    (∀ t : DropdownType, noPromptsMessage t pre suf m = true ↔
      ((t = DropdownType.pfx ∧ pre.prefixes.filter (fun p => !p.deprecated) = []) ∨
       (t = DropdownType.sfx ∧ suf.suffixes.filter (fun q => !q.deprecated) = []) ∨
       (t = DropdownType.phase ∧
         ∀ pd ∈ phaseMapValues m, pd.prompts.filter (fun p => !p.deprecated) = []))) := by
  constructor
  · simp [noPromptsMessage]
  · intro t
    cases t <;>
      simp [noPromptsMessage, List.all_eq_true, List.length_eq_zero]
